import Mathlib

/-!
# GitLogger: deployment webhook relay

A shallow embedding of `main.go`.  The program is a linear sequence of I/O
calls, so every function is modelled by explicit state passing: the state is
the list of effects performed so far (oldest first), and every call into the
outside world (JSON decoding of the body, `exec.Cmd.Run`, `http.Get`,
`http.Post`) asks an environment for its answer.  The environment sees the
whole history, so two calls with equal arguments may be answered differently.
Each effect is recorded in the trace together with the answer it got.

Go strings are modelled by Lean strings; `fmt.Sprintf` with `%s`/`%v` verbs is
string concatenation, and a Go `error` is represented by its text.
-/

namespace GitLogger

/-! ## Data model (`main.go`, lines 14-59) -/

/-- The package-level variables set once by `main` from the flags. -/
structure Config where
  buildCommand : String
  restartCommand : String
  prodUrl : String
  appName : String
  telegramBotToken : String
  chatID : Int
  port : String
  deriving DecidableEq, Repr

/-- One button of an inline keyboard. -/
structure InlineKeyboardButton where
  text : String
  url : String
  deriving DecidableEq, Repr

/-- The markup of a message: rows of buttons. -/
structure ReplyKeyboardMarkup where
  inlineKeyboard : List (List InlineKeyboardButton)
  deriving DecidableEq, Repr

/-- The message handed to `json.Marshal`; `replyMarkup` is a nil-able pointer. -/
structure TelegramMessage where
  chatID : Int
  text : String
  parseMode : String
  replyMarkup : Option ReplyKeyboardMarkup
  disableWebPagePreview : Bool
  deriving DecidableEq, Repr

/-- The author object of a commit record. -/
structure Author where
  name : String
  username : String
  deriving DecidableEq, Repr

/-- One element of `WebhookPayload.Commits`. -/
structure Commit where
  message : String
  author : Author
  url : String
  timestamp : String
  deriving DecidableEq, Repr

/-- The decoded webhook body; `repository` and `sender` hold their `html_url`. -/
structure WebhookPayload where
  repository : String
  sender : String
  commits : List Commit
  deriving DecidableEq, Repr

/-! ## Effects and the environment -/

/-- An effect performed by the program, with the answer of the environment.
A Go `error` is its text: `none` / `Except.ok` stand for a nil error. -/
inductive Event where
  /-- The call `exec.Command(name, args...).Run()` and the error it returned. -/
  | exec (name : String) (args : List String) (err : Option String)
  /-- The call `http.Get(url)`: a transport error, or the status code received. -/
  | httpGet (url : String) (answer : Except String Int)
  /-- The call `http.Post(url, contentType, body)`; the body is kept as the
  message that was marshalled. -/
  | httpPost (url : String) (contentType : String) (body : TelegramMessage)
      (answer : Except String Int)
  /-- A line written through the `log` package. -/
  | log (line : String)

/-- The outside world: answers may depend on everything done so far. -/
structure Env where
  /-- The result of `json.NewDecoder(body).Decode(&payload)`. -/
  jsonDecode : String → Except String WebhookPayload
  /-- The result of `cmd.Run()` for `exec.Command(name, args...)`. -/
  run : List Event → String → List String → Option String
  /-- The result of `http.Get(url)`. -/
  get : List Event → String → Except String Int
  /-- The result of `http.Post(url, contentType, body)`. -/
  post : List Event → String → String → TelegramMessage → Except String Int

/-- The inbound request: only its body is read. -/
structure Request where
  body : String
  deriving DecidableEq, Repr

/-- The part of `http.ResponseWriter` the handlers touch: the status line is
`none` until the header is written. -/
structure ResponseWriter where
  header : List (String × String)
  status : Option Int
  body : String
  deriving DecidableEq, Repr

/-- The writer the server hands to a handler. -/
def ResponseWriter.fresh : ResponseWriter := ⟨[], none, ""⟩

/-- The method `WriteHeader`: a second call is superfluous and ignored. -/
def ResponseWriter.WriteHeader (w : ResponseWriter) (code : Int) : ResponseWriter :=
  if w.status.isSome then w else { w with status := some code }

/-- The method `Write`: writes the header with status 200 first when it has
not been written yet. -/
def ResponseWriter.Write (w : ResponseWriter) (s : String) : ResponseWriter :=
  let w1 := w.WriteHeader 200
  { w1 with body := w1.body ++ s }

def StatusOK : Int := 200

def StatusBadRequest : Int := 400

/-- Library function `http.Error`: plain-text content type, the status code,
then the error text followed by a newline. -/
def httpError (w : ResponseWriter) (error : String) (code : Int) : ResponseWriter :=
  let w1 := { w with header :=
    [("Content-Type", "text/plain; charset=utf-8"), ("X-Content-Type-Options", "nosniff")] }
  (w1.WriteHeader code).Write (error ++ "\n")

/-! ## `strings.ReplaceAll` -/

/-- Leftmost, non-overlapping replacement of a non-empty `old`, scanning left to
right; `skip` counts the characters of the current match still to be dropped. -/
def replaceAux (old new : List Char) : Nat → List Char → List Char
  | _, [] => []
  | skip + 1, _ :: cs => replaceAux old new skip cs
  | 0, c :: cs =>
    if old.isPrefixOf (c :: cs) then new ++ replaceAux old new (old.length - 1) cs
    else c :: replaceAux old new 0 cs

/-- Library function `strings.ReplaceAll(s, old, new)`.  An empty `old` matches
at the beginning of the string and after each character. -/
def stringsReplaceAll (s old new : String) : String :=
  if old = new then s
  else if old.data = [] then String.mk (new.data ++ s.data.flatMap (fun c => c :: new.data))
  else String.mk (replaceAux old.data new.data 0 s.data)

/-! ## The program (`main.go`, lines 80-178) -/

/-- Library function `json.Marshal` at type `TelegramMessage`.  It fails only on
unsupported types or values (channels, functions, cycles, non-finite floats),
none of which a `TelegramMessage` can hold, so it always succeeds; the encoded
body is kept as the message it encodes. -/
def jsonMarshal (m : TelegramMessage) : Except String TelegramMessage := .ok m

/-- `sendMessageToTelegram` (lines 135-161). -/
def sendMessageToTelegram (env : Env) (cfg : Config) (message : String)
    (replyMarkup : Option ReplyKeyboardMarkup) (h : List Event) : List Event :=
  let telegramAPIURL := "https://api.telegram.org/bot" ++ cfg.telegramBotToken ++ "/sendMessage"
  let message := "Update for *" ++ cfg.appName ++ "*:\n\n" ++ message
  let telegramMessage : TelegramMessage :=
    { chatID := cfg.chatID, text := message, parseMode := "Markdown",
      replyMarkup := none, disableWebPagePreview := true }
  let telegramMessage :=
    match replyMarkup with
    | some m => { telegramMessage with replyMarkup := some m }
    | none => telegramMessage
  match jsonMarshal telegramMessage with
  | .error err => h ++ [Event.log ("Error marshalling Telegram message: " ++ err)]
  | .ok telegramMessageJSON =>
    let answer := env.post h telegramAPIURL "application/json" telegramMessageJSON
    let h := h ++ [Event.httpPost telegramAPIURL "application/json" telegramMessageJSON answer]
    match answer with
    | .error err => h ++ [Event.log ("Error sending message to Telegram: " ++ err)]
    | .ok _ => h

/-- `executeCommand` (lines 163-178). -/
def executeCommand (env : Env) (cfg : Config) (cmdString successMessage url text : String)
    (h : List Event) : List Event :=
  if cmdString = "" then h ++ [Event.log "No command provided"]
  else
    let err := env.run h "bash" ["-c", cmdString]
    let h := h ++ [Event.exec "bash" ["-c", cmdString] err]
    match err with
    | some e => sendMessageToTelegram env cfg ("Error executing command: " ++ e) none h
    | none =>
      sendMessageToTelegram env cfg successMessage
        (some ⟨[[{ text := text, url := url }]]⟩) h

/-- `checkProdUrl` (lines 125-133): the returned boolean and the new history. -/
def checkProdUrl (env : Env) (url : String) (h : List Event) : Bool × List Event :=
  let answer := env.get h url
  let h := h ++ [Event.httpGet url answer]
  match answer with
  | .error err => (false, h ++ [Event.log ("Error checking production URL: " ++ err)])
  | .ok statusCode => (decide (statusCode = StatusOK), h)

/-- What a call of a handler leaves behind: the effects, the response writer,
and the run-time panic that ended the call, if any (the server recovers it and
drops the connection without sending a response). -/
structure HandlerResult where
  trace : List Event
  w : ResponseWriter
  panic : Option String

/-- `handleHello` (lines 80-82). -/
def handleHello (w : ResponseWriter) (_r : Request) : HandlerResult :=
  { trace := [], w := w.Write "Hello!\n", panic := none }

/-- `handleWebhook` (lines 84-123). -/
def handleWebhook (env : Env) (cfg : Config) (w : ResponseWriter) (r : Request) :
    HandlerResult :=
  match env.jsonDecode r.body with
  | .error err =>
    { trace := [Event.log ("Error decoding JSON: " ++ err)],
      w := httpError w "Error decoding JSON" StatusBadRequest,
      panic := none }
  | .ok payload =>
    match payload.commits with
    | [] =>
      { trace := [], w := w,
        panic := some "runtime error: index out of range [0] with length 0" }
    | commit0 :: _ =>
      let authorName := commit0.author.name
      let committerName := commit0.author.username
      let userProfileURL := payload.sender
      let message := stringsReplaceAll commit0.message "_" "\\_"
      let commitURL := commit0.url
      let commitDate := commit0.timestamp
      let formattedMessage :=
        "*Author:* `" ++ authorName ++ "`\n*Committer:* [" ++ committerName ++ "]("
          ++ userProfileURL ++ ")\n*Message:* `" ++ message ++ "`\n*Time Stamp:* `"
          ++ commitDate ++ "`"
      let replyMarkup : ReplyKeyboardMarkup := ⟨[[{ text := "View Commit", url := commitURL }]]⟩
      let h := sendMessageToTelegram env cfg formattedMessage (some replyMarkup) []
      let h := executeCommand env cfg cfg.buildCommand
        "Application is being built from the latest commit" commitURL "View Commit" h
      let h := executeCommand env cfg cfg.restartCommand
        "Application has been restarted" cfg.prodUrl "View Application" h
      let (ok, h) := checkProdUrl env cfg.prodUrl h
      if !ok then
        let h := sendMessageToTelegram env cfg "Production URL is not reachable"
          (some ⟨[[{ text := "View Application", url := cfg.prodUrl }]]⟩) h
        { trace := h, w := w.WriteHeader StatusOK, panic := none }
      else
        { trace := h, w := w.WriteHeader StatusOK, panic := none }

/-! ## Observations on traces -/

/-- The messages posted, in order. -/
def notifications : List Event → List TelegramMessage
  | [] => []
  | Event.httpPost _ _ m _ :: es => m :: notifications es
  | _ :: es => notifications es

/-- The argument vectors of the processes run, in order. -/
def shellInvocations : List Event → List (String × List String)
  | [] => []
  | Event.exec name args _ :: es => (name, args) :: shellInvocations es
  | _ :: es => shellInvocations es

/-- The health-check requests made, each with the answer it got, in order. -/
def healthChecks : List Event → List (String × Except String Int)
  | [] => []
  | Event.httpGet url a :: es => (url, a) :: healthChecks es
  | _ :: es => healthChecks es

/-! ## Definitions used to state the properties -/

/-- The message `sendMessageToTelegram` posts for a caller text and a markup. -/
def notification (cfg : Config) (text : String) (markup : Option ReplyKeyboardMarkup) :
    TelegramMessage :=
  { chatID := cfg.chatID, text := "Update for *" ++ cfg.appName ++ "*:\n\n" ++ text,
    parseMode := "Markdown", replyMarkup := markup, disableWebPagePreview := true }

/-- A markup of one row holding one link button. -/
def singleButton (label url : String) : ReplyKeyboardMarkup :=
  ⟨[[{ text := label, url := url }]]⟩

/-- The notification sent when the health check fails. -/
def unreachableNotification (cfg : Config) : TelegramMessage :=
  notification cfg "Production URL is not reachable"
    (some (singleButton "View Application" cfg.prodUrl))

/-- The escaping asked of the commit message: a backslash before every
underscore, every other character unchanged. -/
def escapeUnderscores (m : List Char) : List Char :=
  m.flatMap (fun c => if c = '_' then ['\\', '_'] else [c])

/-- Deletes every backslash that stands right before an underscore. -/
def dropEscapes : List Char → List Char
  | [] => []
  | c :: cs => if c = '\\' ∧ cs.head? = some '_' then dropEscapes cs else c :: dropEscapes cs

/-- The text of the commit summary, as `fmt.Sprintf` lays it out. -/
def commitSummary (authorName committerName userProfileURL message commitDate : String) :
    String :=
  "*Author:* `" ++ authorName ++ "`\n*Committer:* [" ++ committerName ++ "]("
    ++ userProfileURL ++ ")\n*Message:* `" ++ message ++ "`\n*Time Stamp:* `"
    ++ commitDate ++ "`"

/-- The history of `handleWebhook` at the moment it calls `checkProdUrl`: the
commit summary was sent and both commands were handled. -/
def historyBeforeCheck (env : Env) (cfg : Config) (sender : String) (c : Commit) :
    List Event :=
  executeCommand env cfg cfg.restartCommand "Application has been restarted" cfg.prodUrl
    "View Application"
    (executeCommand env cfg cfg.buildCommand "Application is being built from the latest commit"
      c.url "View Commit"
      (sendMessageToTelegram env cfg
        (commitSummary c.author.name c.author.username sender
          (stringsReplaceAll c.message "_" "\\_") c.timestamp)
        (some (singleButton "View Commit" c.url)) []))

/-! ## A concrete deployment, used to instantiate the theorems -/

def demoConfig : Config :=
  { buildCommand := "git pull && make", restartCommand := "systemctl restart app",
    prodUrl := "https://prod.example", appName := "demo", telegramBotToken := "T0KEN",
    chatID := -1001, port := "8080" }

def demoCommit : Commit :=
  { message := "fix_bug", author := { name := "Alice", username := "alice" },
    url := "https://x/commit/1", timestamp := "2024-01-01T00:00:00Z" }

def demoPayload : WebhookPayload :=
  { repository := "https://x/repo", sender := "https://x/alice", commits := [demoCommit] }

/-- A second push: same sender and first commit, another repository and one
more commit. -/
def demoPayload2 : WebhookPayload :=
  { repository := "https://x/fork", sender := "https://x/alice",
    commits := [demoCommit, { demoCommit with message := "older", url := "https://x/commit/0" }] }

/-- The zero value of `WebhookPayload`, which `Decode` leaves for the body `{}`. -/
def emptyPayload : WebhookPayload := { repository := "", sender := "", commits := [] }

/-- The JSON object without members. -/
def emptyBody : String := "\x7b\x7d"

/-- The JSON text of `demoPayload`. -/
def pushBody : String :=
  "\x7b\"repository\":\x7b\"html_url\":\"https://x/repo\"\x7d,"
    ++ "\"sender\":\x7b\"html_url\":\"https://x/alice\"\x7d,"
    ++ "\"commits\":[\x7b\"message\":\"fix_bug\","
    ++ "\"author\":\x7b\"name\":\"Alice\",\"Username\":\"alice\"\x7d,"
    ++ "\"url\":\"https://x/commit/1\",\"timestamp\":\"2024-01-01T00:00:00Z\"\x7d]\x7d"

/-- The JSON text of `demoPayload2`. -/
def pushBody2 : String :=
  "\x7b\"repository\":\x7b\"html_url\":\"https://x/fork\"\x7d,"
    ++ "\"sender\":\x7b\"html_url\":\"https://x/alice\"\x7d,"
    ++ "\"commits\":[\x7b\"message\":\"fix_bug\","
    ++ "\"author\":\x7b\"name\":\"Alice\",\"Username\":\"alice\"\x7d,"
    ++ "\"url\":\"https://x/commit/1\",\"timestamp\":\"2024-01-01T00:00:00Z\"\x7d,"
    ++ "\x7b\"message\":\"older\","
    ++ "\"author\":\x7b\"name\":\"Alice\",\"Username\":\"alice\"\x7d,"
    ++ "\"url\":\"https://x/commit/0\",\"timestamp\":\"2024-01-01T00:00:00Z\"\x7d]\x7d"

/-- An environment in which the build command fails, the restart command
succeeds, the production URL answers 503 and every post goes through.  Its
decoder knows three bodies and rejects every other one. -/
def demoEnv : Env :=
  { jsonDecode := fun body =>
      if body = emptyBody then .ok emptyPayload
      else if body = pushBody then .ok demoPayload
      else if body = pushBody2 then .ok demoPayload2
      else .error "invalid character",
    run := fun _ _ args => if args = ["-c", "git pull && make"] then some "exit status 1" else none,
    get := fun _ _ => .ok 503,
    post := fun _ _ _ _ => .ok 200 }

/-! ## Lemmas on traces -/

theorem notifications_append (a b : List Event) :
    notifications (a ++ b) = notifications a ++ notifications b := by
  induction a with
  | nil => rfl
  | cons e es ih => cases e <;> simp [notifications, ih]

theorem shellInvocations_append (a b : List Event) :
    shellInvocations (a ++ b) = shellInvocations a ++ shellInvocations b := by
  induction a with
  | nil => rfl
  | cons e es ih => cases e <;> simp [shellInvocations, ih]

theorem healthChecks_append (a b : List Event) :
    healthChecks (a ++ b) = healthChecks a ++ healthChecks b := by
  induction a with
  | nil => rfl
  | cons e es ih => cases e <;> simp [healthChecks, ih]

/-- What `sendMessageToTelegram` adds to the history: one post, and a log line
when the post failed. -/
theorem sendMessageToTelegram_eq (env : Env) (cfg : Config) (message : String)
    (markup : Option ReplyKeyboardMarkup) (h : List Event) :
    ∃ a logs, (∀ e ∈ logs, ∃ l, e = Event.log l) ∧
      sendMessageToTelegram env cfg message markup h =
        h ++ Event.httpPost ("https://api.telegram.org/bot" ++ cfg.telegramBotToken
          ++ "/sendMessage") "application/json" (notification cfg message markup) a :: logs := by
  cases markup <;> simp only [sendMessageToTelegram, jsonMarshal, notification]
  all_goals
    split
    · next err hq =>
      exact ⟨Except.error err, [Event.log ("Error sending message to Telegram: " ++ err)],
        by simp, by rw [hq]; simp⟩
    · next v hq => exact ⟨Except.ok v, [], by simp, by rw [hq]⟩

theorem notifications_logs (logs : List Event) (hl : ∀ e ∈ logs, ∃ l, e = Event.log l) :
    notifications logs = [] := by
  induction logs with
  | nil => rfl
  | cons e es ih =>
    obtain ⟨l, rfl⟩ := hl e (by simp)
    simpa [notifications] using ih (fun e he => hl e (by simp [he]))

theorem shellInvocations_logs (logs : List Event) (hl : ∀ e ∈ logs, ∃ l, e = Event.log l) :
    shellInvocations logs = [] := by
  induction logs with
  | nil => rfl
  | cons e es ih =>
    obtain ⟨l, rfl⟩ := hl e (by simp)
    simpa [shellInvocations] using ih (fun e he => hl e (by simp [he]))

theorem healthChecks_logs (logs : List Event) (hl : ∀ e ∈ logs, ∃ l, e = Event.log l) :
    healthChecks logs = [] := by
  induction logs with
  | nil => rfl
  | cons e es ih =>
    obtain ⟨l, rfl⟩ := hl e (by simp)
    simpa [healthChecks] using ih (fun e he => hl e (by simp [he]))

theorem notifications_send (env : Env) (cfg : Config) (message : String)
    (markup : Option ReplyKeyboardMarkup) (h : List Event) :
    notifications (sendMessageToTelegram env cfg message markup h) =
      notifications h ++ [notification cfg message markup] := by
  obtain ⟨a, logs, hl, heq⟩ := sendMessageToTelegram_eq env cfg message markup h
  rw [heq, notifications_append]
  simp [notifications, notifications_logs logs hl]

theorem shellInvocations_send (env : Env) (cfg : Config) (message : String)
    (markup : Option ReplyKeyboardMarkup) (h : List Event) :
    shellInvocations (sendMessageToTelegram env cfg message markup h) = shellInvocations h := by
  obtain ⟨a, logs, hl, heq⟩ := sendMessageToTelegram_eq env cfg message markup h
  rw [heq, shellInvocations_append]
  simp [shellInvocations, shellInvocations_logs logs hl]

theorem healthChecks_send (env : Env) (cfg : Config) (message : String)
    (markup : Option ReplyKeyboardMarkup) (h : List Event) :
    healthChecks (sendMessageToTelegram env cfg message markup h) = healthChecks h := by
  obtain ⟨a, logs, hl, heq⟩ := sendMessageToTelegram_eq env cfg message markup h
  rw [heq, healthChecks_append]
  simp [healthChecks, healthChecks_logs logs hl]

/-- The notification `executeCommand` sends for a non-empty command, given the
error `cmd.Run()` returned. -/
theorem notifications_executeCommand (env : Env) (cfg : Config)
    (cmd successMessage url text : String) (h : List Event) (hne : cmd ≠ "") :
    notifications (executeCommand env cfg cmd successMessage url text h) =
      notifications h ++
        [match env.run h "bash" ["-c", cmd] with
         | some e => notification cfg ("Error executing command: " ++ e) none
         | none => notification cfg successMessage (some (singleButton text url))] := by
  simp only [executeCommand, if_neg hne]
  cases env.run h "bash" ["-c", cmd] <;>
    simp [notifications_send, notifications_append, notifications, singleButton]

theorem notifications_executeCommand_empty (env : Env) (cfg : Config)
    (successMessage url text : String) (h : List Event) :
    notifications (executeCommand env cfg "" successMessage url text h) = notifications h := by
  simp [executeCommand, notifications_append, notifications]

theorem shellInvocations_executeCommand (env : Env) (cfg : Config)
    (cmd successMessage url text : String) (h : List Event) :
    shellInvocations (executeCommand env cfg cmd successMessage url text h) =
      shellInvocations h ++ (if cmd = "" then [] else [("bash", ["-c", cmd])]) := by
  by_cases hc : cmd = ""
  · simp [executeCommand, hc, shellInvocations_append, shellInvocations]
  · simp only [executeCommand, if_neg hc]
    cases env.run h "bash" ["-c", cmd] <;>
      simp [shellInvocations_send, shellInvocations_append, shellInvocations]

theorem healthChecks_executeCommand (env : Env) (cfg : Config)
    (cmd successMessage url text : String) (h : List Event) :
    healthChecks (executeCommand env cfg cmd successMessage url text h) = healthChecks h := by
  by_cases hc : cmd = ""
  · simp [executeCommand, hc, healthChecks_append, healthChecks]
  · simp only [executeCommand, if_neg hc]
    cases env.run h "bash" ["-c", cmd] <;>
      simp [healthChecks_send, healthChecks_append, healthChecks]

/-! ## The shape of a run of `handleWebhook` -/

theorem handleWebhook_of_commit (env : Env) (cfg : Config) (w : ResponseWriter) (r : Request)
    (p : WebhookPayload) (c : Commit) (rest : List Commit)
    (hdec : env.jsonDecode r.body = .ok p) (hc : p.commits = c :: rest) :
    handleWebhook env cfg w r =
      { trace :=
          if (checkProdUrl env cfg.prodUrl (historyBeforeCheck env cfg p.sender c)).1 then
            (checkProdUrl env cfg.prodUrl (historyBeforeCheck env cfg p.sender c)).2
          else
            sendMessageToTelegram env cfg "Production URL is not reachable"
              (some (singleButton "View Application" cfg.prodUrl))
              (checkProdUrl env cfg.prodUrl (historyBeforeCheck env cfg p.sender c)).2,
        w := w.WriteHeader StatusOK,
        panic := none } := by
  simp only [handleWebhook, hdec, hc, historyBeforeCheck, commitSummary, singleButton]
  split <;> simp_all

theorem checkProdUrl_snd (env : Env) (url : String) (h : List Event) :
    ∃ logs, (∀ e ∈ logs, ∃ l, e = Event.log l) ∧
      (checkProdUrl env url h).2 = h ++ Event.httpGet url (env.get h url) :: logs := by
  simp only [checkProdUrl]
  cases hq : env.get h url with
  | error err => exact ⟨[Event.log ("Error checking production URL: " ++ err)], by simp, by simp⟩
  | ok code => exact ⟨[], by simp, by simp⟩

/-! ## Lemmas on strings -/

theorem replaceAux_single (x : Char) (new s : List Char) :
    replaceAux [x] new 0 s = s.flatMap (fun c => if c = x then new else [c]) := by
  induction s with
  | nil => rfl
  | cons c cs ih =>
    by_cases hx : c = x
    · subst hx
      simp [replaceAux, List.isPrefixOf, ih]
    · have hx2 : ¬ x = c := fun e => hx e.symm
      simp [replaceAux, List.isPrefixOf, ih, hx, hx2]

theorem stringsReplaceAll_underscore (m : String) :
    stringsReplaceAll m "_" "\\_" = String.mk (escapeUnderscores m.data) := by
  have h1 : ¬ ("_" : String) = "\\_" := by decide
  have h2 : ("_" : String).data = ['_'] := rfl
  have h3 : ("\\_" : String).data = ['\\', '_'] := rfl
  simp only [stringsReplaceAll, if_neg h1, h2, h3, replaceAux_single, escapeUnderscores]
  simp

theorem escapeUnderscores_head (m : List Char) : (escapeUnderscores m).head? ≠ some '_' := by
  cases m with
  | nil => simp [escapeUnderscores]
  | cons c cs =>
    by_cases hx : c = '_'
    · subst hx
      simp [escapeUnderscores]
    · simp [escapeUnderscores, hx]

theorem escapeUnderscores_cons (c : Char) (cs : List Char) :
    escapeUnderscores (c :: cs) =
      (if c = '_' then ['\\', '_'] else [c]) ++ escapeUnderscores cs := by
  simp [escapeUnderscores]

theorem dropEscapes_escapeUnderscores (m : List Char) :
    dropEscapes (escapeUnderscores m) = m := by
  induction m with
  | nil => rfl
  | cons c cs ih =>
    rw [escapeUnderscores_cons]
    by_cases hx : c = '_'
    · subst hx
      have hne := escapeUnderscores_head cs
      simp [dropEscapes, ih, hne]
    · have hne := escapeUnderscores_head cs
      simp [dropEscapes, ih, hne, hx]

theorem string_append_left_cancel (pre a b : String) (h : pre ++ a = pre ++ b) : a = b := by
  have hd := congrArg String.data h
  simp only [String.data_append] at hd
  exact String.ext (List.append_cancel_left hd)

theorem notification_text_injective (cfg : Config) (a b : String)
    (ma mb : Option ReplyKeyboardMarkup) (h : notification cfg a ma = notification cfg b mb) :
    a = b ∧ ma = mb := by
  simp only [notification, TelegramMessage.mk.injEq] at h
  exact ⟨string_append_left_cancel _ a b h.2.1, h.2.2.2.1⟩

/-! ## Lemmas on the notification of an unreachable production URL -/

theorem notification_ne_unreachable (cfg : Config) (t : String)
    (mk : Option ReplyKeyboardMarkup)
    (h : t ≠ "Production URL is not reachable" ∨
      mk ≠ some (singleButton "View Application" cfg.prodUrl)) :
    notification cfg t mk ≠ unreachableNotification cfg := by
  intro heq
  obtain ⟨h1, h2⟩ := notification_text_injective cfg _ _ _ _ heq
  rcases h with h | h
  · exact h h1
  · exact h h2

theorem unreachable_not_mem_executeCommand (env : Env) (cfg : Config)
    (cmd successMessage url text : String) (h : List Event)
    (hs : successMessage ≠ "Production URL is not reachable")
    (hh : unreachableNotification cfg ∉ notifications h) :
    unreachableNotification cfg ∉
      notifications (executeCommand env cfg cmd successMessage url text h) := by
  by_cases hc : cmd = ""
  · subst hc
    rw [notifications_executeCommand_empty]
    exact hh
  · rw [notifications_executeCommand env cfg cmd successMessage url text h hc]
    intro hmem
    rcases List.mem_append.1 hmem with hm | hm
    · exact hh hm
    · rw [List.mem_singleton] at hm
      cases hq : env.run h "bash" ["-c", cmd] with
      | none =>
        rw [hq] at hm
        exact notification_ne_unreachable cfg _ _ (Or.inl hs) hm.symm
      | some e =>
        rw [hq] at hm
        exact notification_ne_unreachable cfg _ _ (Or.inr (by simp)) hm.symm

theorem unreachable_not_mem_historyBeforeCheck (env : Env) (cfg : Config) (sender : String)
    (c : Commit) :
    unreachableNotification cfg ∉ notifications (historyBeforeCheck env cfg sender c) := by
  unfold historyBeforeCheck
  apply unreachable_not_mem_executeCommand _ _ _ _ _ _ _ (by decide)
  apply unreachable_not_mem_executeCommand _ _ _ _ _ _ _ (by decide)
  rw [notifications_send]
  simp only [notifications, List.nil_append, List.mem_singleton]
  intro heq
  refine notification_ne_unreachable cfg _ _ (Or.inr ?_) heq.symm
  have hl : ¬ ("View Commit" : String) = "View Application" := by decide
  simp [singleButton, hl]

theorem healthChecks_historyBeforeCheck (env : Env) (cfg : Config) (sender : String)
    (c : Commit) : healthChecks (historyBeforeCheck env cfg sender c) = [] := by
  simp [historyBeforeCheck, healthChecks_executeCommand, healthChecks_send, healthChecks]

set_option maxRecDepth 20000

/-! ## The webhook route -/

/-- C1: when the body decodes into a payload with at least one commit, then
whatever the environment answers to the commands, the health check and the
posts, `handleWebhook` returns (no panic) with the response status set to 200. -/
theorem handleWebhook_responds_200 (env : Env) (cfg : Config) (r : Request)
    (p : WebhookPayload) (hdec : env.jsonDecode r.body = .ok p) (hc : p.commits ≠ []) :
    (handleWebhook env cfg ResponseWriter.fresh r).panic = none ∧
      (handleWebhook env cfg ResponseWriter.fresh r).w.status = some 200 := by
  obtain ⟨c, rest, hcr⟩ := List.exists_cons_of_ne_nil hc
  rw [handleWebhook_of_commit env cfg _ r p c rest hdec hcr]
  exact ⟨rfl, rfl⟩

theorem handleWebhook_responds_200_witness :
    demoEnv.jsonDecode (Request.mk pushBody).body = .ok demoPayload ∧
      demoPayload.commits ≠ [] ∧
      (handleWebhook demoEnv demoConfig ResponseWriter.fresh (Request.mk pushBody)).panic = none ∧
      (handleWebhook demoEnv demoConfig ResponseWriter.fresh (Request.mk pushBody)).w.status
        = some 200 :=
  ⟨rfl, by decide,
    handleWebhook_responds_200 demoEnv demoConfig (Request.mk pushBody) demoPayload rfl
      (by decide)⟩

/-- C2: when decoding the body fails, `handleWebhook` answers 400 with the
plain-text error, and its trace holds no shell invocation, no health-check GET
and no notification. -/
theorem handleWebhook_decode_failure (env : Env) (cfg : Config) (r : Request) (err : String)
    (hdec : env.jsonDecode r.body = .error err) :
    (handleWebhook env cfg ResponseWriter.fresh r).w.status = some 400 ∧
      (handleWebhook env cfg ResponseWriter.fresh r).w.body = "Error decoding JSON\n" ∧
      shellInvocations (handleWebhook env cfg ResponseWriter.fresh r).trace = [] ∧
      healthChecks (handleWebhook env cfg ResponseWriter.fresh r).trace = [] ∧
      notifications (handleWebhook env cfg ResponseWriter.fresh r).trace = [] := by
  simp only [handleWebhook, hdec]
  refine ⟨rfl, ?_, rfl, rfl, rfl⟩
  decide

theorem handleWebhook_decode_failure_witness :
    demoEnv.jsonDecode (Request.mk "not json").body = .error "invalid character" ∧
      (handleWebhook demoEnv demoConfig ResponseWriter.fresh (Request.mk "not json")).w.status
        = some 400 ∧
      (handleWebhook demoEnv demoConfig ResponseWriter.fresh (Request.mk "not json")).w.body
        = "Error decoding JSON\n" ∧
      shellInvocations
        (handleWebhook demoEnv demoConfig ResponseWriter.fresh (Request.mk "not json")).trace = [] ∧
      healthChecks
        (handleWebhook demoEnv demoConfig ResponseWriter.fresh (Request.mk "not json")).trace = [] ∧
      notifications
        (handleWebhook demoEnv demoConfig ResponseWriter.fresh (Request.mk "not json")).trace = [] :=
  ⟨rfl, handleWebhook_decode_failure demoEnv demoConfig (Request.mk "not json")
    "invalid character" rfl⟩

/-- C3 (evaluation at the failing input): for a body that decodes into a payload
with no commit, such as the JSON object without members, the access
`payload.Commits[0]` panics: the handler performs no effect and never writes a
status, so the caller gets no 200. -/
theorem handleWebhook_no_commit_panics :
    demoEnv.jsonDecode (Request.mk emptyBody).body = .ok emptyPayload ∧
      emptyPayload.commits = [] ∧
      (handleWebhook demoEnv demoConfig ResponseWriter.fresh (Request.mk emptyBody)).panic
        = some "runtime error: index out of range [0] with length 0" ∧
      (handleWebhook demoEnv demoConfig ResponseWriter.fresh (Request.mk emptyBody)).w.status
        = none ∧
      (handleWebhook demoEnv demoConfig ResponseWriter.fresh (Request.mk emptyBody)).w.status
        ≠ some 200 :=
  ⟨rfl, rfl, rfl, rfl, by decide⟩

/-- C4: with at least one commit and non-empty build and restart commands, the
shell is invoked exactly twice, first with the build command and then with the
restart command, whatever the environment answers to the build command. -/
theorem handleWebhook_runs_build_then_restart (env : Env) (cfg : Config) (r : Request)
    (p : WebhookPayload) (hdec : env.jsonDecode r.body = .ok p) (hc : p.commits ≠ [])
    (hb : cfg.buildCommand ≠ "") (hr : cfg.restartCommand ≠ "") :
    shellInvocations (handleWebhook env cfg ResponseWriter.fresh r).trace =
      [("bash", ["-c", cfg.buildCommand]), ("bash", ["-c", cfg.restartCommand])] := by
  obtain ⟨c, rest, hcr⟩ := List.exists_cons_of_ne_nil hc
  rw [handleWebhook_of_commit env cfg _ r p c rest hdec hcr]
  obtain ⟨logs, hl, heq⟩ := checkProdUrl_snd env cfg.prodUrl (historyBeforeCheck env cfg p.sender c)
  have hh : shellInvocations (historyBeforeCheck env cfg p.sender c) =
      [("bash", ["-c", cfg.buildCommand]), ("bash", ["-c", cfg.restartCommand])] := by
    simp [historyBeforeCheck, shellInvocations_executeCommand, shellInvocations_send, hb, hr,
      shellInvocations]
  have hk : shellInvocations
      (checkProdUrl env cfg.prodUrl (historyBeforeCheck env cfg p.sender c)).2 =
      [("bash", ["-c", cfg.buildCommand]), ("bash", ["-c", cfg.restartCommand])] := by
    rw [heq, shellInvocations_append, hh]
    simp [shellInvocations, shellInvocations_logs logs hl]
  split
  · exact hk
  · rw [shellInvocations_send]
    exact hk

theorem handleWebhook_runs_build_then_restart_witness :
    demoEnv.jsonDecode (Request.mk pushBody).body = .ok demoPayload ∧
      demoPayload.commits ≠ [] ∧ demoConfig.buildCommand ≠ "" ∧
      demoConfig.restartCommand ≠ "" ∧
      demoEnv.run [] "bash" ["-c", demoConfig.buildCommand] = some "exit status 1" ∧
      shellInvocations
        (handleWebhook demoEnv demoConfig ResponseWriter.fresh (Request.mk pushBody)).trace =
        [("bash", ["-c", demoConfig.buildCommand]), ("bash", ["-c", demoConfig.restartCommand])] :=
  ⟨rfl, by decide, by decide, by decide, rfl,
    handleWebhook_runs_build_then_restart demoEnv demoConfig (Request.mk pushBody) demoPayload rfl
      (by decide) (by decide) (by decide)⟩

/-- C5: the commit summary is the first notification of the request, and the
message text placed in it is the commit message with a backslash put before
every underscore and every other character kept, in order; deleting those
backslashes gives the commit message back, and `fix_bug` becomes `fix\_bug`. -/
theorem handleWebhook_escapes_underscores (env : Env) (cfg : Config) (r : Request)
    (p : WebhookPayload) (c : Commit) (rest : List Commit)
    (hdec : env.jsonDecode r.body = .ok p) (hc : p.commits = c :: rest) :
    (∃ n, (notifications (handleWebhook env cfg ResponseWriter.fresh r).trace).head? = some n ∧
      n.text = "Update for *" ++ cfg.appName ++ "*:\n\n" ++
        commitSummary c.author.name c.author.username p.sender
          (String.mk (escapeUnderscores c.message.data)) c.timestamp) ∧
      stringsReplaceAll c.message "_" "\\_" = String.mk (escapeUnderscores c.message.data) ∧
      dropEscapes (escapeUnderscores c.message.data) = c.message.data ∧
      stringsReplaceAll "fix_bug" "_" "\\_" = "fix\\_bug" := by
  refine ⟨?_, stringsReplaceAll_underscore _, dropEscapes_escapeUnderscores _, ?_⟩
  · rw [handleWebhook_of_commit env cfg _ r p c rest hdec hc]
    obtain ⟨logs, hl, heq⟩ :=
      checkProdUrl_snd env cfg.prodUrl (historyBeforeCheck env cfg p.sender c)
    have hh : ∃ tl, notifications (historyBeforeCheck env cfg p.sender c) =
        notification cfg (commitSummary c.author.name c.author.username p.sender
          (String.mk (escapeUnderscores c.message.data)) c.timestamp)
          (some (singleButton "View Commit" c.url)) :: tl := by
      by_cases hb : cfg.buildCommand = "" <;> by_cases hr : cfg.restartCommand = "" <;>
        simp [historyBeforeCheck, hb, hr, notifications_executeCommand,
          notifications_executeCommand_empty, notifications_send, notifications,
          stringsReplaceAll_underscore]
    obtain ⟨tl, htl⟩ := hh
    refine ⟨notification cfg (commitSummary c.author.name c.author.username p.sender
      (String.mk (escapeUnderscores c.message.data)) c.timestamp)
      (some (singleButton "View Commit" c.url)), ?_, rfl⟩
    split
    · rw [heq, notifications_append, htl]
      rfl
    · rw [notifications_send, heq, notifications_append, htl]
      rfl
  · rw [stringsReplaceAll_underscore]
    decide

theorem handleWebhook_escapes_underscores_witness :
    demoEnv.jsonDecode (Request.mk pushBody).body = .ok demoPayload ∧
      demoPayload.commits = demoCommit :: [] ∧
      ((∃ n, (notifications
          (handleWebhook demoEnv demoConfig ResponseWriter.fresh (Request.mk pushBody)).trace).head?
            = some n ∧
        n.text = "Update for *" ++ demoConfig.appName ++ "*:\n\n" ++
          commitSummary demoCommit.author.name demoCommit.author.username demoPayload.sender
            (String.mk (escapeUnderscores demoCommit.message.data)) demoCommit.timestamp) ∧
        stringsReplaceAll demoCommit.message "_" "\\_"
          = String.mk (escapeUnderscores demoCommit.message.data) ∧
        dropEscapes (escapeUnderscores demoCommit.message.data) = demoCommit.message.data ∧
        stringsReplaceAll "fix_bug" "_" "\\_" = "fix\\_bug") :=
  ⟨rfl, rfl,
    handleWebhook_escapes_underscores demoEnv demoConfig (Request.mk pushBody) demoPayload
      demoCommit [] rfl rfl⟩

/-- C6: two requests whose payloads have the same sender profile URL and the
same first commit get, in the same environment, the same run of the handler:
the same trace (notifications, shell invocations, health check) and the same
response.  The later commits and the repository URL play no part. -/
theorem handleWebhook_depends_on_first_commit (env : Env) (cfg : Config) (r1 r2 : Request)
    (p1 p2 : WebhookPayload) (c : Commit) (rest1 rest2 : List Commit)
    (hdec1 : env.jsonDecode r1.body = .ok p1) (hdec2 : env.jsonDecode r2.body = .ok p2)
    (hs : p1.sender = p2.sender) (hc1 : p1.commits = c :: rest1)
    (hc2 : p2.commits = c :: rest2) :
    handleWebhook env cfg ResponseWriter.fresh r1 = handleWebhook env cfg ResponseWriter.fresh r2 := by
  rw [handleWebhook_of_commit env cfg _ r1 p1 c rest1 hdec1 hc1,
    handleWebhook_of_commit env cfg _ r2 p2 c rest2 hdec2 hc2, hs]

theorem handleWebhook_depends_on_first_commit_witness :
    demoEnv.jsonDecode (Request.mk pushBody).body = .ok demoPayload ∧
      demoEnv.jsonDecode (Request.mk pushBody2).body = .ok demoPayload2 ∧
      demoPayload.sender = demoPayload2.sender ∧
      demoPayload.commits = demoCommit :: [] ∧
      demoPayload2.commits = demoCommit ::
        [{ demoCommit with message := "older", url := "https://x/commit/0" }] ∧
      demoPayload.repository ≠ demoPayload2.repository ∧
      handleWebhook demoEnv demoConfig ResponseWriter.fresh (Request.mk pushBody) =
        handleWebhook demoEnv demoConfig ResponseWriter.fresh (Request.mk pushBody2) :=
  ⟨rfl, rfl, rfl, rfl, rfl, by decide,
    handleWebhook_depends_on_first_commit demoEnv demoConfig (Request.mk pushBody)
      (Request.mk pushBody2) demoPayload demoPayload2 demoCommit [] _ rfl rfl rfl rfl rfl⟩

/-- C8: with at least one commit, the handler answers 200 whatever the health
check gives, and makes that one check, on the production URL, after everything
else (`h` is the history at that moment).  When `checkProdUrl` returns true no
notification follows and "Production URL is not reachable" (one button pointing
at the production URL) is not sent at all; when it returns false that
notification is sent exactly once and is the last notification of the request. -/
theorem handleWebhook_unreachable_notification (env : Env) (cfg : Config) (r : Request)
    (p : WebhookPayload) (hdec : env.jsonDecode r.body = .ok p) (hc : p.commits ≠ []) :
    (handleWebhook env cfg ResponseWriter.fresh r).w.status = some 200 ∧
      (unreachableNotification cfg).text =
        "Update for *" ++ cfg.appName ++ "*:\n\n" ++ "Production URL is not reachable" ∧
      (unreachableNotification cfg).replyMarkup =
        some ⟨[[{ text := "View Application", url := cfg.prodUrl }]]⟩ ∧
      ∃ h : List Event,
        h <+: (handleWebhook env cfg ResponseWriter.fresh r).trace ∧
        healthChecks h = [] ∧
        healthChecks (handleWebhook env cfg ResponseWriter.fresh r).trace =
          [(cfg.prodUrl, env.get h cfg.prodUrl)] ∧
        ((checkProdUrl env cfg.prodUrl h).1 = true →
          notifications (handleWebhook env cfg ResponseWriter.fresh r).trace = notifications h ∧
          (notifications (handleWebhook env cfg ResponseWriter.fresh r).trace).count
            (unreachableNotification cfg) = 0) ∧
        ((checkProdUrl env cfg.prodUrl h).1 = false →
          notifications (handleWebhook env cfg ResponseWriter.fresh r).trace =
            notifications h ++ [unreachableNotification cfg] ∧
          (notifications (handleWebhook env cfg ResponseWriter.fresh r).trace).count
            (unreachableNotification cfg) = 1 ∧
          (notifications (handleWebhook env cfg ResponseWriter.fresh r).trace).getLast? =
            some (unreachableNotification cfg)) := by
  obtain ⟨c, rest, hcr⟩ := List.exists_cons_of_ne_nil hc
  rw [handleWebhook_of_commit env cfg _ r p c rest hdec hcr]
  refine ⟨rfl, rfl, rfl, historyBeforeCheck env cfg p.sender c, ?_,
    healthChecks_historyBeforeCheck env cfg p.sender c, ?_, ?_, ?_⟩
  all_goals
    obtain ⟨logs, hl, heq⟩ :=
      checkProdUrl_snd env cfg.prodUrl (historyBeforeCheck env cfg p.sender c)
    have hnot := unreachable_not_mem_historyBeforeCheck env cfg p.sender c
    have hhc := healthChecks_historyBeforeCheck env cfg p.sender c
    have hcount := List.count_eq_zero_of_not_mem hnot
  · simp only []
    split
    · rw [heq]
      exact List.prefix_append _ _
    · obtain ⟨a, logs2, _, heq2⟩ := sendMessageToTelegram_eq env cfg
        "Production URL is not reachable" (some (singleButton "View Application" cfg.prodUrl))
        (checkProdUrl env cfg.prodUrl (historyBeforeCheck env cfg p.sender c)).2
      rw [heq2, heq, List.append_assoc]
      exact List.prefix_append _ _
  · simp only []
    split
    · rw [heq, healthChecks_append, hhc]
      simp [healthChecks, healthChecks_logs logs hl]
    · rw [healthChecks_send, heq, healthChecks_append, hhc]
      simp [healthChecks, healthChecks_logs logs hl]
  · intro hok
    simp only [hok, if_true]
    rw [heq, notifications_append]
    constructor
    · simp [notifications, notifications_logs logs hl]
    · simpa [notifications, notifications_logs logs hl] using hcount
  · intro hok
    have hf : ¬ (false = true) := by decide
    simp only [hok, if_neg hf]
    have hu : notification cfg "Production URL is not reachable"
        (some (singleButton "View Application" cfg.prodUrl)) = unreachableNotification cfg := rfl
    rw [notifications_send, heq, notifications_append, hu]
    refine ⟨?_, ?_, ?_⟩
    · simp [notifications, notifications_logs logs hl]
    · simp [notifications, notifications_logs logs hl, List.count_append, hcount]
    · simp [notifications, notifications_logs logs hl]

theorem handleWebhook_unreachable_notification_witness :
    demoEnv.jsonDecode (Request.mk pushBody).body = .ok demoPayload ∧
      demoPayload.commits ≠ [] ∧
      (handleWebhook demoEnv demoConfig ResponseWriter.fresh (Request.mk pushBody)).w.status
        = some 200 ∧
      (unreachableNotification demoConfig).text =
        "Update for *" ++ demoConfig.appName ++ "*:\n\n" ++ "Production URL is not reachable" ∧
      (unreachableNotification demoConfig).replyMarkup =
        some ⟨[[{ text := "View Application", url := demoConfig.prodUrl }]]⟩ ∧
      ∃ h : List Event,
        h <+: (handleWebhook demoEnv demoConfig ResponseWriter.fresh (Request.mk pushBody)).trace ∧
        healthChecks h = [] ∧
        healthChecks
          (handleWebhook demoEnv demoConfig ResponseWriter.fresh (Request.mk pushBody)).trace =
          [(demoConfig.prodUrl, demoEnv.get h demoConfig.prodUrl)] ∧
        ((checkProdUrl demoEnv demoConfig.prodUrl h).1 = true →
          notifications
            (handleWebhook demoEnv demoConfig ResponseWriter.fresh (Request.mk pushBody)).trace
            = notifications h ∧
          (notifications
            (handleWebhook demoEnv demoConfig ResponseWriter.fresh
              (Request.mk pushBody)).trace).count (unreachableNotification demoConfig) = 0) ∧
        ((checkProdUrl demoEnv demoConfig.prodUrl h).1 = false →
          notifications
            (handleWebhook demoEnv demoConfig ResponseWriter.fresh (Request.mk pushBody)).trace
            = notifications h ++ [unreachableNotification demoConfig] ∧
          (notifications
            (handleWebhook demoEnv demoConfig ResponseWriter.fresh
              (Request.mk pushBody)).trace).count (unreachableNotification demoConfig) = 1 ∧
          (notifications
            (handleWebhook demoEnv demoConfig ResponseWriter.fresh
              (Request.mk pushBody)).trace).getLast? =
            some (unreachableNotification demoConfig)) :=
  ⟨rfl, by decide,
    handleWebhook_unreachable_notification demoEnv demoConfig (Request.mk pushBody) demoPayload
      rfl (by decide)⟩

/-! ## `executeCommand` and `checkProdUrl` -/

/-- C7: for a non-empty command, `executeCommand` sends exactly one
notification.  When `cmd.Run()` returns an error, its text is the error text
after the fixed prefixes and it has no reply markup; when the command succeeds,
its caller text is `successText` and its markup is one row of one button
labelled `linkLabel` pointing at `linkURL`. -/
theorem executeCommand_sends_one_notification (env : Env) (cfg : Config)
    (command successText linkURL linkLabel : String) (h : List Event) (hne : command ≠ "") :
    ∃ n, notifications (executeCommand env cfg command successText linkURL linkLabel h) =
        notifications h ++ [n] ∧
      (∀ e, env.run h "bash" ["-c", command] = some e →
        n.text = "Update for *" ++ cfg.appName ++ "*:\n\n" ++ ("Error executing command: " ++ e) ∧
        (∃ pre, n.text = pre ++ e) ∧ n.replyMarkup = none) ∧
      (env.run h "bash" ["-c", command] = none →
        n.text = "Update for *" ++ cfg.appName ++ "*:\n\n" ++ successText ∧
        n.replyMarkup = some ⟨[[{ text := linkLabel, url := linkURL }]]⟩) := by
  rw [notifications_executeCommand env cfg command successText linkURL linkLabel h hne]
  cases hq : env.run h "bash" ["-c", command] with
  | none =>
    refine ⟨_, rfl, ?_, ?_⟩
    · intro e he
      cases he
    · intro _
      exact ⟨rfl, rfl⟩
  | some e0 =>
    refine ⟨_, rfl, ?_, ?_⟩
    · intro e he
      cases he
      exact ⟨rfl, ⟨"Update for *" ++ cfg.appName ++ "*:\n\n" ++ "Error executing command: ",
        (String.append_assoc _ _ _).symm⟩, rfl⟩
    · intro hn
      cases hn

theorem executeCommand_sends_one_notification_witness :
    demoConfig.buildCommand ≠ "" ∧
      demoEnv.run [] "bash" ["-c", demoConfig.buildCommand] = some "exit status 1" ∧
      ∃ n, notifications (executeCommand demoEnv demoConfig demoConfig.buildCommand
          "Application is being built from the latest commit" "https://x/commit/1"
          "View Commit" []) = notifications [] ++ [n] ∧
        (∀ e, demoEnv.run [] "bash" ["-c", demoConfig.buildCommand] = some e →
          n.text = "Update for *" ++ demoConfig.appName ++ "*:\n\n"
            ++ ("Error executing command: " ++ e) ∧
          (∃ pre, n.text = pre ++ e) ∧ n.replyMarkup = none) ∧
        (demoEnv.run [] "bash" ["-c", demoConfig.buildCommand] = none →
          n.text = "Update for *" ++ demoConfig.appName ++ "*:\n\n"
            ++ "Application is being built from the latest commit" ∧
          n.replyMarkup = some ⟨[[{ text := "View Commit", url := "https://x/commit/1" }]]⟩) :=
  ⟨by decide, rfl,
    executeCommand_sends_one_notification demoEnv demoConfig demoConfig.buildCommand
      "Application is being built from the latest commit" "https://x/commit/1" "View Commit" []
      (by decide)⟩

/-- C9: `checkProdUrl` makes one GET and returns true exactly when that GET was
answered with status 200: a transport error gives false, and so does every
other status, 204 included. -/
theorem checkProdUrl_true_iff (env : Env) (url : String) (h : List Event) :
    ((checkProdUrl env url h).1 = true ↔ env.get h url = .ok 200) ∧
      (∀ err, env.get h url = .error err → (checkProdUrl env url h).1 = false) ∧
      (∀ code, env.get h url = .ok code → code ≠ 200 → (checkProdUrl env url h).1 = false) ∧
      (env.get h url = .ok 204 → (checkProdUrl env url h).1 = false) ∧
      healthChecks (checkProdUrl env url h).2 = healthChecks h ++ [(url, env.get h url)] := by
  have hk : healthChecks (checkProdUrl env url h).2 = healthChecks h ++ [(url, env.get h url)] := by
    obtain ⟨logs, hl, heq⟩ := checkProdUrl_snd env url h
    rw [heq, healthChecks_append]
    simp [healthChecks, healthChecks_logs logs hl]
  refine ⟨?_, ?_, ?_, ?_, hk⟩
  · cases hq : env.get h url <;> simp [checkProdUrl, hq, StatusOK]
  · intro err hq
    simp [checkProdUrl, hq]
  · intro code hq hcode
    simp [checkProdUrl, hq, StatusOK, hcode]
  · intro hq
    simp [checkProdUrl, hq, StatusOK]

/-- C10: with the empty command string, `executeCommand` only logs a line: it
runs no shell and posts no notification. -/
theorem executeCommand_empty_command (env : Env) (cfg : Config)
    (successText linkURL linkLabel : String) (h : List Event) :
    executeCommand env cfg "" successText linkURL linkLabel h =
        h ++ [Event.log "No command provided"] ∧
      shellInvocations [Event.log "No command provided"] = [] ∧
      notifications [Event.log "No command provided"] = [] ∧
      shellInvocations (executeCommand env cfg "" successText linkURL linkLabel h) =
        shellInvocations h ∧
      notifications (executeCommand env cfg "" successText linkURL linkLabel h) =
        notifications h := by
  refine ⟨by simp [executeCommand], rfl, rfl, ?_, ?_⟩
  · simp [shellInvocations_executeCommand]
  · exact notifications_executeCommand_empty env cfg successText linkURL linkLabel h

end GitLogger
